import Mathlib

/-!
Verification of the StreamKeeper Node backend's response-normalization layer
and request-forwarding contract, as a shallow embedding in Lean.

JavaScript values are modelled by `JsValue`; JS property access (which throws
a TypeError when the base is `undefined` or `null`) is modelled by
`JsValue.get` returning `Except String JsValue`; JS truthiness by
`JsValue.truthy`.  Each entity class constructor from `models/` becomes a
function `X.construct : JsValue → Except String X`; the route handlers from
`controller/` become functions parameterized by an upstream-fetch oracle, and
they additionally return the list of upstream calls they issued.
-/

/-- A JavaScript/JSON value.  `undefined` is distinct from `null`; numbers are
modelled as integers (no claim depends on fractional values); objects are
ordered association lists, mirroring JS property-insertion order. -/
inductive JsValue where
  | undefined : JsValue
  | null : JsValue
  | bool : Bool → JsValue
  | num : Int → JsValue
  | str : String → JsValue
  | arr : List JsValue → JsValue
  | obj : List (String × JsValue) → JsValue

/-- JS property access `v[k]`: throws (TypeError) when the base is `undefined`
or `null`; yields the property value, or `undefined` when the key is absent,
on objects; yields `undefined` on other primitives. -/
def JsValue.get : JsValue → String → Except String JsValue
  | .undefined, _ => .error "TypeError"
  | .null, _ => .error "TypeError"
  | .obj fs, k => .ok ((fs.lookup k).getD .undefined)
  | _, _ => .ok .undefined

/-- JS truthiness: `undefined`, `null`, `false`, `0`, and `""` are falsy. -/
def JsValue.truthy : JsValue → Bool
  | .undefined => false
  | .null => false
  | .bool b => b
  | .num n => !(n == 0)
  | .str s => !s.isEmpty
  | .arr _ => true
  | .obj _ => true

/-- The `Media` base class shape (`models/Media.js`). -/
structure Media where
  id : JsValue
  mediaType : JsValue
  popularity : JsValue
  overview : JsValue
  posterPath : JsValue
  backdropPath : JsValue

/-- `Media` constructor: copies the base fields, defaulting `mediaType` to
`"unknown"` when `data.media_type` is falsy (`models/Media.js`). -/
def Media.construct (data : JsValue) : Except String Media := do
  let i ← data.get "id"
  let mt ← data.get "media_type"
  let pop ← data.get "popularity"
  let ov ← data.get "overview"
  let pp ← data.get "poster_path"
  let bp ← data.get "backdrop_path"
  .ok ⟨i, if mt.truthy then mt else .str "unknown", pop, ov, pp, bp⟩

/-- The `Movie` class shape (`models/Movie.js`): `Media` fields followed by
the movie-specific fields, in JS property-insertion order. -/
structure Movie where
  id : JsValue
  mediaType : JsValue
  popularity : JsValue
  overview : JsValue
  posterPath : JsValue
  backdropPath : JsValue
  title : JsValue
  originalTitle : JsValue
  releaseDate : JsValue
  genreIds : JsValue
  voteAverage : JsValue
  voteCount : JsValue

/-- `Movie` constructor: runs `super(data)` (the `Media` constructor), then
unconditionally overwrites `mediaType` with `'Movie'`, then copies the
movie-specific raw fields (`models/Movie.js`). -/
def Movie.construct (data : JsValue) : Except String Movie := do
  let base ← Media.construct data
  let t ← data.get "title"
  let ot ← data.get "original_title"
  let rd ← data.get "release_date"
  let gi ← data.get "genre_ids"
  let va ← data.get "vote_average"
  let vc ← data.get "vote_count"
  .ok ⟨base.id, .str "Movie", base.popularity, base.overview, base.posterPath,
       base.backdropPath, t, ot, rd, gi, va, vc⟩

/-- The `TVShow` class shape (`models/TVShow.js`). -/
structure TVShow where
  id : JsValue
  mediaType : JsValue
  popularity : JsValue
  overview : JsValue
  posterPath : JsValue
  backdropPath : JsValue
  name : JsValue
  originalName : JsValue
  firstAirDate : JsValue
  genreIds : JsValue
  voteAverage : JsValue
  voteCount : JsValue

/-- `TVShow` constructor (`models/TVShow.js`): `super(data)`, then overwrite
`mediaType` with `'TVShow'`, then copy the TV-specific raw fields. -/
def TVShow.construct (data : JsValue) : Except String TVShow := do
  let base ← Media.construct data
  let n ← data.get "name"
  let on' ← data.get "original_name"
  let fad ← data.get "first_air_date"
  let gi ← data.get "genre_ids"
  let va ← data.get "vote_average"
  let vc ← data.get "vote_count"
  .ok ⟨base.id, .str "TVShow", base.popularity, base.overview, base.posterPath,
       base.backdropPath, n, on', fad, gi, va, vc⟩

/-- The `Person` class shape (`models/Person.js`). -/
structure Person where
  id : JsValue
  mediaType : JsValue
  popularity : JsValue
  overview : JsValue
  posterPath : JsValue
  backdropPath : JsValue
  name : JsValue
  knownFor : JsValue
  gender : JsValue
  knownForDepartment : JsValue

/-- `Person` constructor (`models/Person.js`): `super(data)`, then overwrite
`mediaType` with `'Person'`, then copy the person-specific raw fields. -/
def Person.construct (data : JsValue) : Except String Person := do
  let base ← Media.construct data
  let n ← data.get "name"
  let kf ← data.get "known_for"
  let g ← data.get "gender"
  let kfd ← data.get "known_for_department"
  .ok ⟨base.id, .str "Person", base.popularity, base.overview, base.posterPath,
       base.backdropPath, n, kf, g, kfd⟩

/-- The `Review` class shape (`models/Review.js`); not a `Media` subtype. -/
structure Review where
  author : JsValue
  content : JsValue
  created : JsValue
  updated : JsValue
  rating : JsValue

/-- `Review` constructor (`models/Review.js`): copies the raw fields and sets
`rating` to `data.author_details.rating || 0`.  The two-level property access
throws when `author_details` is `undefined` or `null`. -/
def Review.construct (data : JsValue) : Except String Review := do
  let a ← data.get "author"
  let c ← data.get "content"
  let cr ← data.get "created_at"
  let up ← data.get "updated_at"
  let ad ← data.get "author_details"
  let r ← ad.get "rating"
  .ok ⟨a, c, cr, up, if r.truthy then r else .num 0⟩

/-- Claim C1: constructing a Movie from any raw JSON object yields a record
whose mediaType is exactly "Movie", regardless of any media_type value in the
raw object; likewise TVShow yields "TVShow" and Person yields "Person". -/
theorem c1_constructor_tag_override (fs : List (String × JsValue)) :
    (Movie.construct (.obj fs)).map Movie.mediaType = .ok (.str "Movie") ∧
    (TVShow.construct (.obj fs)).map TVShow.mediaType = .ok (.str "TVShow") ∧
    (Person.construct (.obj fs)).map Person.mediaType = .ok (.str "Person") :=
  ⟨rfl, rfl, rfl⟩

/-- Closed form of the `Review` constructor on a raw object: the first four
fields are plain lookups; the result is governed by the (possibly throwing)
nested access `data.author_details.rating`. -/
theorem Review.construct_obj (fs : List (String × JsValue)) :
    Review.construct (.obj fs) =
      Except.bind (((fs.lookup "author_details").getD .undefined).get "rating")
        (fun rv => .ok ⟨(fs.lookup "author").getD .undefined,
                    (fs.lookup "content").getD .undefined,
                    (fs.lookup "created_at").getD .undefined,
                    (fs.lookup "updated_at").getD .undefined,
                    if rv.truthy then rv else .num 0⟩) := rfl

/-- Claim C2, counterexample: a raw object in which `author_details.rating`
is missing because `author_details` itself is absent makes the `Review`
constructor throw a TypeError instead of producing a record with rating 0. -/
theorem c2_review_missing_details_throws :
    Review.construct (.obj []) = .error "TypeError" := rfl

/-- Claim C2, amended: when the raw object carries an `author_details` value
on which the `rating` lookup succeeds but yields `undefined` (in particular,
whenever `author_details` is present as an object lacking `rating`), the
constructed Review's rating is 0; when `author_details` itself is absent the
constructor throws instead of producing a record. -/
theorem c2_review_rating_defaults_to_zero
    (fs : List (String × JsValue)) (ad : JsValue)
    (h1 : (JsValue.obj fs).get "author_details" = .ok ad)
    (h2 : ad.get "rating" = .ok .undefined) :
    (Review.construct (.obj fs)).map Review.rating = .ok (.num 0) := by
  have h1' : (fs.lookup "author_details").getD JsValue.undefined = ad := by
    simpa [JsValue.get] using h1
  rw [Review.construct_obj, h1', h2]
  rfl

/-- Witness for the amended C2 theorem at a concrete raw object whose
`author_details` object lacks `rating`. -/
theorem c2_review_rating_defaults_to_zero_witness :
    (JsValue.obj [("author_details", JsValue.obj [("x", JsValue.num 1)])]).get
        "author_details" = .ok (.obj [("x", .num 1)]) ∧
    (JsValue.obj [("x", JsValue.num 1)]).get "rating" = .ok .undefined ∧
    (Review.construct
        (.obj [("author_details", .obj [("x", .num 1)])])).map Review.rating =
      .ok (.num 0) :=
  ⟨rfl, rfl, c2_review_rating_defaults_to_zero _ _ rfl rfl⟩

/-- Claim C3, counterexample: the `Review` constructor does not succeed on
every raw JSON object with absent optional fields: when `author_details` is
absent the nested access `data.author_details.rating` throws. -/
theorem c3_review_constructor_throws :
    Review.construct (.obj [("author", .str "alice")]) = .error "TypeError" :=
  rfl

/-- Claim C3, amended: the Movie, TVShow, and Person constructors succeed on
every raw JSON object, absent fields propagating as undefined; the Review
constructor succeeds whenever `author_details` is present and is neither
undefined nor null, but throws when `author_details` is absent. -/
theorem c3_construction_totality :
    (∀ fs : List (String × JsValue), ∃ m, Movie.construct (.obj fs) = .ok m) ∧
    (∀ fs : List (String × JsValue), ∃ t, TVShow.construct (.obj fs) = .ok t) ∧
    (∀ fs : List (String × JsValue), ∃ p, Person.construct (.obj fs) = .ok p) ∧
    (∀ (fs : List (String × JsValue)) (ad : JsValue),
      (JsValue.obj fs).get "author_details" = .ok ad →
      ad ≠ .undefined → ad ≠ .null →
      ∃ r, Review.construct (.obj fs) = .ok r) := by
  refine ⟨fun fs => ⟨_, rfl⟩, fun fs => ⟨_, rfl⟩, fun fs => ⟨_, rfl⟩, ?_⟩
  intro fs ad h1 hu hn
  have h1' : (fs.lookup "author_details").getD JsValue.undefined = ad := by
    simpa [JsValue.get] using h1
  simp only [Review.construct_obj, h1']
  cases ad with
  | undefined => exact absurd rfl hu
  | null => exact absurd rfl hn
  | bool b => exact ⟨_, rfl⟩
  | num n => exact ⟨_, rfl⟩
  | str s => exact ⟨_, rfl⟩
  | arr xs => exact ⟨_, rfl⟩
  | obj gs => exact ⟨_, rfl⟩

/-- Witness for the amended C3 theorem: its Review conjunct applied at a
concrete raw object carrying an (empty) `author_details` object. -/
theorem c3_construction_totality_witness :
    (JsValue.obj [("author_details", JsValue.obj [])]).get "author_details" =
      .ok (.obj []) ∧
    JsValue.obj [] ≠ JsValue.undefined ∧
    JsValue.obj [] ≠ JsValue.null ∧
    ∃ r, Review.construct (.obj [("author_details", .obj [])]) = .ok r :=
  ⟨rfl, fun h => JsValue.noConfusion h, fun h => JsValue.noConfusion h,
    c3_construction_totality.2.2.2 _ _ rfl
      (fun h => JsValue.noConfusion h) (fun h => JsValue.noConfusion h)⟩

/-- JS `Array.prototype.map` with a callback that may throw (as used on
`data.results` in the controllers): sequential, stops at the first thrown
exception, otherwise returns the images in input order. -/
def mapExcept {α β : Type} (f : α → Except String β) : List α → Except String (List β)
  | [] => .ok []
  | x :: xs =>
    Except.bind (f x) (fun y =>
      Except.bind (mapExcept f xs) (fun ys => .ok (y :: ys)))

theorem mapExcept_cons_ok {α β : Type} {f : α → Except String β} {x : α}
    {xs : List α} {ys : List β} (h : mapExcept f (x :: xs) = .ok ys) :
    ∃ y ys', f x = .ok y ∧ mapExcept f xs = .ok ys' ∧ ys = y :: ys' := by
  simp only [mapExcept] at h
  cases hfx : f x with
  | error e => rw [hfx] at h; exact absurd h (by simp [Except.bind])
  | ok y =>
    rw [hfx] at h
    cases hmx : mapExcept f xs with
    | error e => rw [hmx] at h; exact absurd h (by simp [Except.bind])
    | ok ys' =>
      rw [hmx] at h
      simp only [Except.bind] at h
      injection h with h'
      exact ⟨y, ys', rfl, rfl, h'.symm⟩

theorem mapExcept_ok_spec {α β : Type} (f : α → Except String β) :
    ∀ (xs : List α) (ys : List β), mapExcept f xs = .ok ys →
      ys.length = xs.length ∧
      ∀ (i : Nat) (h1 : i < xs.length) (h2 : i < ys.length),
        f (xs.get ⟨i, h1⟩) = .ok (ys.get ⟨i, h2⟩) := by
  intro xs
  induction xs with
  | nil =>
    intro ys h
    simp only [mapExcept] at h
    injection h with h'
    subst h'
    exact ⟨rfl, fun i h1 _ => absurd h1 (Nat.not_lt_zero i)⟩
  | cons x xs ih =>
    intro ys h
    obtain ⟨y, ys', hfx, hmx, rfl⟩ := mapExcept_cons_ok h
    obtain ⟨hlen, hget⟩ := ih ys' hmx
    refine ⟨by simp [hlen], ?_⟩
    intro i h1 h2
    cases i with
    | zero => simpa using hfx
    | succ j =>
      simpa using hget j (by simpa using h1) (by simpa using h2)

/-- The own-property list of a constructed `Movie` instance, in JS
property-insertion order (what `res.json` serializes). -/
def Movie.toObj (m : Movie) : List (String × JsValue) :=
  [("id", m.id), ("mediaType", m.mediaType), ("popularity", m.popularity),
   ("overview", m.overview), ("posterPath", m.posterPath),
   ("backdropPath", m.backdropPath), ("title", m.title),
   ("originalTitle", m.originalTitle), ("releaseDate", m.releaseDate),
   ("genreIds", m.genreIds), ("voteAverage", m.voteAverage),
   ("voteCount", m.voteCount)]

/-- The own-property list of a constructed `TVShow` instance. -/
def TVShow.toObj (t : TVShow) : List (String × JsValue) :=
  [("id", t.id), ("mediaType", t.mediaType), ("popularity", t.popularity),
   ("overview", t.overview), ("posterPath", t.posterPath),
   ("backdropPath", t.backdropPath), ("name", t.name),
   ("originalName", t.originalName), ("firstAirDate", t.firstAirDate),
   ("genreIds", t.genreIds), ("voteAverage", t.voteAverage),
   ("voteCount", t.voteCount)]

/-- The own-property list of a constructed `Person` instance. -/
def Person.toObj (p : Person) : List (String × JsValue) :=
  [("id", p.id), ("mediaType", p.mediaType), ("popularity", p.popularity),
   ("overview", p.overview), ("posterPath", p.posterPath),
   ("backdropPath", p.backdropPath), ("name", p.name),
   ("knownFor", p.knownFor), ("gender", p.gender),
   ("knownForDepartment", p.knownForDepartment)]

/-- The own-property list of a constructed `Review` instance. -/
def Review.toObj (r : Review) : List (String × JsValue) :=
  [("author", r.author), ("content", r.content), ("created", r.created),
   ("updated", r.updated), ("rating", r.rating)]

/-- JS strict equality of a value against a string literal, as used by the
`switch (item.media_type)` dispatch. -/
def JsValue.isStr (v : JsValue) (s : String) : Bool :=
  match v with
  | .str t => t == s
  | _ => false

theorem JsValue.isStr_eq_false {v : JsValue} {s : String} (h : v ≠ .str s) :
    v.isStr s = false := by
  cases v with
  | str t =>
    simp only [JsValue.isStr, beq_eq_false_iff_ne, ne_eq]
    exact fun hts => h (by rw [hts])
  | undefined => rfl
  | null => rfl
  | bool b => rfl
  | num n => rfl
  | arr xs => rfl
  | obj fs => rfl

/-- Result of the multi-search per-item dispatch: a typed record for the
three recognized tags or the raw item for the fallback arm. -/
inductive MultiResult where
  | movie : Movie → MultiResult
  | tv : TVShow → MultiResult
  | person : Person → MultiResult
  | raw : JsValue → MultiResult

/-- The body of the `switch (item.media_type)` in `tmdbController.js`
(`/search/multi`), given the already-read tag value. -/
def multiItemDispatch (item mt : JsValue) : Except String MultiResult :=
  if mt.isStr "movie" then Except.map MultiResult.movie (Movie.construct item)
  else if mt.isStr "tv" then Except.map MultiResult.tv (TVShow.construct item)
  else if mt.isStr "person" then
    Except.map MultiResult.person (Person.construct item)
  else .ok (.raw item)

/-- The multi-search map callback (`tmdbController.js`, `/search/multi`):
reads `item.media_type` (which can throw) and dispatches on it. -/
def multiItemNormalize (item : JsValue) : Except String MultiResult :=
  Except.bind (item.get "media_type") (multiItemDispatch item)

/-- Serialization of a multi-search result, mirroring what `res.json`
receives: a class instance's own properties, or the raw item itself. -/
def MultiResult.toJs : MultiResult → JsValue
  | .movie m => .obj m.toObj
  | .tv t => .obj t.toObj
  | .person p => .obj p.toObj
  | .raw v => v

theorem JsValue.obj_of_get_str {item : JsValue} {k s : String}
    (h : item.get k = .ok (.str s)) :
    ∃ fs, item = .obj fs ∧ (fs.lookup k).getD .undefined = .str s := by
  cases item with
  | obj fs => exact ⟨fs, rfl, by simpa [JsValue.get] using h⟩
  | undefined => simp [JsValue.get] at h
  | null => simp [JsValue.get] at h
  | bool b => simp [JsValue.get] at h
  | num n => simp [JsValue.get] at h
  | str t => simp [JsValue.get] at h
  | arr xs => simp [JsValue.get] at h

/-- Concrete multi-search item tagged `movie`. -/
def multiMovieItem : JsValue :=
  .obj [("media_type", .str "movie"), ("id", .num 1)]

/-- Concrete multi-search item tagged `tv`. -/
def multiTvItem : JsValue :=
  .obj [("media_type", .str "tv"), ("id", .num 2)]

/-- Concrete multi-search item tagged `person`. -/
def multiPersonItem : JsValue :=
  .obj [("media_type", .str "person"), ("id", .num 3)]

/-- Concrete multi-search item with an unrecognized tag. -/
def multiOtherItem : JsValue :=
  .obj [("media_type", .str "collection"), ("id", .num 4)]

/-- Claim C4: element-wise normalization of a `results` array preserves
length and order, both for the single-type list normalization (e.g. the
movie lists) and for the multi-search normalization: the output has the same
number of elements, and the element at each index is the normalization of
the input element at that index. -/
theorem c4_results_elementwise
    (rs rs2 : List JsValue) (out : List Movie) (out2 : List MultiResult)
    (h : mapExcept Movie.construct rs = .ok out)
    (h2 : mapExcept multiItemNormalize rs2 = .ok out2) :
    (out.length = rs.length ∧
      ∀ (i : Nat) (hi : i < rs.length) (hi' : i < out.length),
        Movie.construct (rs.get ⟨i, hi⟩) = .ok (out.get ⟨i, hi'⟩)) ∧
    (out2.length = rs2.length ∧
      ∀ (i : Nat) (hi : i < rs2.length) (hi' : i < out2.length),
        multiItemNormalize (rs2.get ⟨i, hi⟩) = .ok (out2.get ⟨i, hi'⟩)) :=
  ⟨mapExcept_ok_spec _ rs out h, mapExcept_ok_spec _ rs2 out2 h2⟩

/-- Concrete raw movie list for the C4 witness. -/
def c4MoviesIn : List JsValue := [JsValue.obj [], JsValue.obj [("id", .num 7)]]

/-- The normalization of `c4MoviesIn`. -/
def c4MoviesOut : List Movie :=
  [⟨.undefined, .str "Movie", .undefined, .undefined, .undefined,
    .undefined, .undefined, .undefined, .undefined, .undefined,
    .undefined, .undefined⟩,
   ⟨.num 7, .str "Movie", .undefined, .undefined, .undefined,
    .undefined, .undefined, .undefined, .undefined, .undefined,
    .undefined, .undefined⟩]

/-- Witness for C4 at concrete inputs. -/
theorem c4_results_elementwise_witness :
    mapExcept Movie.construct c4MoviesIn = .ok c4MoviesOut ∧
    mapExcept multiItemNormalize [multiOtherItem] = .ok [.raw multiOtherItem] ∧
    c4MoviesOut.length = c4MoviesIn.length ∧
    ([MultiResult.raw multiOtherItem].length = [multiOtherItem].length) :=
  ⟨rfl, rfl,
    (c4_results_elementwise c4MoviesIn [multiOtherItem] c4MoviesOut
      [.raw multiOtherItem] rfl rfl).1.1,
    (c4_results_elementwise c4MoviesIn [multiOtherItem] c4MoviesOut
      [.raw multiOtherItem] rfl rfl).2.1⟩

/-- Claim C5: multi-search normalization dispatches on each item's
`media_type` tag with exactly three recognized variants (movie, tv, person);
any other or missing tag returns the original raw item unchanged; on the
spec's four-item scenario the output keeps the input order. -/
theorem c5_multi_dispatch (item : JsValue) :
    (item.get "media_type" = .ok (.str "movie") →
      ∃ m, Movie.construct item = .ok m ∧
        multiItemNormalize item = .ok (.movie m)) ∧
    (item.get "media_type" = .ok (.str "tv") →
      ∃ t, TVShow.construct item = .ok t ∧
        multiItemNormalize item = .ok (.tv t)) ∧
    (item.get "media_type" = .ok (.str "person") →
      ∃ p, Person.construct item = .ok p ∧
        multiItemNormalize item = .ok (.person p)) ∧
    (∀ mt, item.get "media_type" = .ok mt →
      mt ≠ .str "movie" → mt ≠ .str "tv" → mt ≠ .str "person" →
      multiItemNormalize item = .ok (.raw item)) ∧
    mapExcept multiItemNormalize
        [multiMovieItem, multiTvItem, multiPersonItem, multiOtherItem] =
      .ok [.movie ⟨.num 1, .str "Movie", .undefined, .undefined, .undefined,
                   .undefined, .undefined, .undefined, .undefined, .undefined,
                   .undefined, .undefined⟩,
           .tv ⟨.num 2, .str "TVShow", .undefined, .undefined, .undefined,
                .undefined, .undefined, .undefined, .undefined, .undefined,
                .undefined, .undefined⟩,
           .person ⟨.num 3, .str "Person", .undefined, .undefined, .undefined,
                    .undefined, .undefined, .undefined, .undefined,
                    .undefined⟩,
           .raw multiOtherItem] := by
  refine ⟨?_, ?_, ?_, ?_, rfl⟩
  · intro h
    obtain ⟨fs, rfl, hmt⟩ := JsValue.obj_of_get_str h
    refine ⟨_, rfl, ?_⟩
    unfold multiItemNormalize
    rw [show (JsValue.obj fs).get "media_type" =
          .ok ((fs.lookup "media_type").getD .undefined) from rfl, hmt]
    rfl
  · intro h
    obtain ⟨fs, rfl, hmt⟩ := JsValue.obj_of_get_str h
    refine ⟨_, rfl, ?_⟩
    unfold multiItemNormalize
    rw [show (JsValue.obj fs).get "media_type" =
          .ok ((fs.lookup "media_type").getD .undefined) from rfl, hmt]
    rfl
  · intro h
    obtain ⟨fs, rfl, hmt⟩ := JsValue.obj_of_get_str h
    refine ⟨_, rfl, ?_⟩
    unfold multiItemNormalize
    rw [show (JsValue.obj fs).get "media_type" =
          .ok ((fs.lookup "media_type").getD .undefined) from rfl, hmt]
    rfl
  · intro mt h hne1 hne2 hne3
    unfold multiItemNormalize
    rw [h, show Except.bind (Except.ok mt) (multiItemDispatch item) =
          multiItemDispatch item mt from rfl]
    unfold multiItemDispatch
    rw [JsValue.isStr_eq_false hne1, JsValue.isStr_eq_false hne2,
        JsValue.isStr_eq_false hne3]
    rfl

/-- Witness for C5: its movie conjunct and its fallback conjunct applied at
concrete items. -/
theorem c5_multi_dispatch_witness :
    multiMovieItem.get "media_type" = .ok (.str "movie") ∧
    (∃ m, Movie.construct multiMovieItem = .ok m ∧
      multiItemNormalize multiMovieItem = .ok (.movie m)) ∧
    multiOtherItem.get "media_type" = .ok (.str "collection") ∧
    multiItemNormalize multiOtherItem = .ok (.raw multiOtherItem) :=
  ⟨rfl, (c5_multi_dispatch multiMovieItem).1 rfl, rfl,
    (c5_multi_dispatch multiOtherItem).2.2.2.1 (.str "collection") rfl
      (fun h => by injection h with h'; exact absurd h' (by decide))
      (fun h => by injection h with h'; exact absurd h' (by decide))
      (fun h => by injection h with h'; exact absurd h' (by decide))⟩

/-- Claim C10: normalization is a projection onto a fixed closed field set;
the constructed records expose exactly the fixed field names, in insertion
order, no matter which fields the raw object carried. -/
theorem c10_closed_field_set (fs : List (String × JsValue)) (r : Review)
    (_hr : Review.construct (.obj fs) = .ok r) :
    (Movie.construct (.obj fs)).map (fun m => m.toObj.map Prod.fst) =
      .ok ["id", "mediaType", "popularity", "overview", "posterPath",
           "backdropPath", "title", "originalTitle", "releaseDate",
           "genreIds", "voteAverage", "voteCount"] ∧
    (TVShow.construct (.obj fs)).map (fun t => t.toObj.map Prod.fst) =
      .ok ["id", "mediaType", "popularity", "overview", "posterPath",
           "backdropPath", "name", "originalName", "firstAirDate",
           "genreIds", "voteAverage", "voteCount"] ∧
    (Person.construct (.obj fs)).map (fun p => p.toObj.map Prod.fst) =
      .ok ["id", "mediaType", "popularity", "overview", "posterPath",
           "backdropPath", "name", "knownFor", "gender",
           "knownForDepartment"] ∧
    r.toObj.map Prod.fst = ["author", "content", "created", "updated",
                            "rating"] :=
  ⟨rfl, rfl, rfl, rfl⟩

/-- Witness for C10 at a raw object carrying extra fields beside an
`author_details` object, so that the Review construction succeeds. -/
theorem c10_closed_field_set_witness :
    Review.construct (.obj [("author_details", .obj []), ("extra", .num 9)]) =
      .ok ⟨.undefined, .undefined, .undefined, .undefined, .num 0⟩ ∧
    (Review.toObj ⟨.undefined, .undefined, .undefined, .undefined,
        .num 0⟩).map Prod.fst =
      ["author", "content", "created", "updated", "rating"] :=
  ⟨rfl, (c10_closed_field_set
          [("author_details", .obj []), ("extra", .num 9)] _ rfl).2.2.2⟩

/-- The upstream-call oracle: what `fetchFromTmdb` looks like to the route
handlers — an endpoint and a parameter set, yielding parsed JSON or a thrown
error. -/
abbrev Fetch := String → List (String × String) → Except String JsValue

/-- A recorded invocation of the Upstream Client. -/
structure UpstreamCall where
  endpoint : String
  params : List (String × String)

/-- An HTTP response: status code plus serialized body (`.str` for
`res.send` text bodies, structured values for `res.json`). -/
structure HttpResponse where
  status : Nat
  body : JsValue

/-- The `{ error: msg }` body shape used by every controller catch block. -/
def jsonErr (msg : String) : JsValue := .obj [("error", .str msg)]

/-- JS falsiness of `req.query.query` (a string, or undefined when the query
parameter is absent): `!query` holds exactly for undefined and `""`. -/
def optFalsy : Option String → Bool
  | none => true
  | some s => s.isEmpty

/-- The regular-expression test `/^\d+$/.test(series_id)` from the TV
controller's `validateSeriesId` middleware. -/
def isAllDigits (s : String) : Bool :=
  !s.data.isEmpty && s.data.all (fun c => c.isDigit)

/-- `data.results` followed by an array method: the access throws when
`data` is undefined/null, and `.map` throws unless the value is an array. -/
def getResults (data : JsValue) : Except String (List JsValue) :=
  Except.bind (data.get "results") (fun rs =>
    match rs with
    | .arr items => .ok items
    | _ => .error "TypeError")

/-- The try/catch pattern shared by the data route handlers: perform the
upstream call, shape the result, answer 200 with the shaped body
(`res.json` defaults to status 200), and map any exception — from the call
or from the shaping — to a 500 carrying the handler's static message. -/
def respond (r : Except String JsValue) (errMsg : String) : HttpResponse :=
  match r with
  | .ok body => ⟨200, body⟩
  | .error _ => ⟨500, jsonErr errMsg⟩

def handleFetch (fetch : Fetch) (ep : String) (ps : List (String × String))
    (shape : JsValue → Except String JsValue) (errMsg : String) :
    HttpResponse × List UpstreamCall :=
  (respond (Except.bind (fetch ep ps) shape) errMsg, [⟨ep, ps⟩])

/-- `data.results.map((item) => new Movie(item))`, serialized. -/
def movieListShape (data : JsValue) : Except String JsValue :=
  Except.bind (getResults data) (fun items =>
    Except.map (fun ms => JsValue.arr (ms.map (fun m => .obj (Movie.toObj m))))
      (mapExcept Movie.construct items))

/-- `data.results.map((item) => new TVShow(item))`, serialized. -/
def tvListShape (data : JsValue) : Except String JsValue :=
  Except.bind (getResults data) (fun items =>
    Except.map (fun ts => JsValue.arr (ts.map (fun t => .obj (TVShow.toObj t))))
      (mapExcept TVShow.construct items))

/-- `data.results.map((item) => new Person(item))`, serialized. -/
def personListShape (data : JsValue) : Except String JsValue :=
  Except.bind (getResults data) (fun items =>
    Except.map (fun ps => JsValue.arr (ps.map (fun p => .obj (Person.toObj p))))
      (mapExcept Person.construct items))

/-- The `/search/multi` response shape `{ searchResults }`. -/
def multiShape (data : JsValue) : Except String JsValue :=
  Except.bind (getResults data) (fun items =>
    Except.map
      (fun rs => JsValue.obj [("searchResults", .arr (rs.map MultiResult.toJs))])
      (mapExcept multiItemNormalize items))

/-- movieController `/search`: rejects a falsy query with 400 before any
upstream call, otherwise searches and maps the results to Movies. -/
def movieSearchHandler (fetch : Fetch) (query : Option String) :
    HttpResponse × List UpstreamCall :=
  if optFalsy query then (⟨400, jsonErr "Query parameter is required"⟩, [])
  else handleFetch fetch "/search/movie" [("query", query.getD "")]
    movieListShape "Failed to search movies"

/-- tvShowController `/search/tv`: same guard; the query travels inside the
endpoint string through `encodeURIComponent`, modelled by the `enc`
parameter. -/
def tvSearchHandler (fetch : Fetch) (enc : String → String)
    (query : Option String) : HttpResponse × List UpstreamCall :=
  if optFalsy query then (⟨400, jsonErr "Query parameter is required"⟩, [])
  else handleFetch fetch ("/search/tv?query=" ++ enc (query.getD "")) []
    tvListShape "Failed to search TV shows"

/-- personController `/search`: no query guard; an absent query is
interpolated into the endpoint template as the string "undefined". -/
def personSearchHandler (fetch : Fetch) (query : Option String) :
    HttpResponse × List UpstreamCall :=
  handleFetch fetch
    ("/search/person?query=" ++ (match query with
      | some s => s
      | none => "undefined")) []
    personListShape "Failed to perform search"

/-- movieController `/:movie_id(\d+)`: the digits-only route pattern means
the handler receives a numeric id, converted with `Number(...)`. -/
def movieDetailsHandler (fetch : Fetch) (movieId : Nat) :
    HttpResponse × List UpstreamCall :=
  handleFetch fetch ("/movie/" ++ toString movieId) []
    (fun data => Except.map (fun m => JsValue.obj (Movie.toObj m))
      (Movie.construct data))
    "Failed to fetch movie details"

/-- tvShowController `validateSeriesId` middleware composed with the
`/:series_id` handler: non-digit ids get a 400 before any upstream call. -/
def tvDetailsHandler (fetch : Fetch) (seriesId : String) :
    HttpResponse × List UpstreamCall :=
  if !isAllDigits seriesId then
    (⟨400, jsonErr "Invalid series_id format. It must be a number."⟩, [])
  else
    handleFetch fetch ("/tv/" ++ seriesId) []
      (fun data => Except.map (fun t => JsValue.obj (TVShow.toObj t))
        (TVShow.construct data))
      ("Failed to fetch TV show with id " ++ seriesId)

/-- tmdbController `/search/multi`: no query guard; an undefined query value
is dropped from the axios parameter set. -/
def multiSearchHandler (fetch : Fetch) (query : Option String) :
    HttpResponse × List UpstreamCall :=
  handleFetch fetch "/search/multi"
    (match query with
      | some q => [("query", q)]
      | none => [])
    multiShape "Failed to fetch multi-search results"

/-- tmdbController `/auth/validate`: probes `/authentication/token/new` and
maps success to 200 and any failure to 401 with an error body. -/
def authValidateHandler (fetch : Fetch) : HttpResponse × List UpstreamCall :=
  match fetch "/authentication/token/new" [] with
  | .ok _ => (⟨200, .obj [("message", .str "API Key is valid")]⟩,
      [⟨"/authentication/token/new", []⟩])
  | .error _ => (⟨401, jsonErr "Invalid API Key"⟩,
      [⟨"/authentication/token/new", []⟩])

/-- The root `/validate` endpoint of the server entry file: a direct axios
call answering with plain-text (`res.send`) bodies. -/
def rootValidateHandler (axiosGet : Fetch) (baseUrl apiKey : String) :
    HttpResponse :=
  match axiosGet (baseUrl ++ "/configuration") [("api_key", apiKey)] with
  | .ok _ => ⟨200, .str "API key is valid."⟩
  | .error _ => ⟨500, .str "API key is invalid or TMDB service is unavailable."⟩

/-- A `/health` handler: static 200, no upstream call. -/
def healthHandler : HttpResponse × List UpstreamCall :=
  (⟨200, .obj [("message", .str "TMDb API is running")]⟩, [])

/-- Claim C6: a movie-search or TV-search request whose query parameter is
missing or empty yields status 400 with an error-object body, and the
upstream client is never invoked (the recorded call list is empty). -/
theorem c6_empty_query_short_circuits (fetch : Fetch) (enc : String → String)
    (query : Option String) (h : query = none ∨ query = some "") :
    movieSearchHandler fetch query =
      (⟨400, jsonErr "Query parameter is required"⟩, []) ∧
    tvSearchHandler fetch enc query =
      (⟨400, jsonErr "Query parameter is required"⟩, []) := by
  rcases h with rfl | rfl <;> exact ⟨rfl, rfl⟩

/-- Witness for C6 at a missing query with a concrete fetch oracle. -/
theorem c6_empty_query_short_circuits_witness :
    ((none : Option String) = none ∨ (none : Option String) = some "") ∧
    movieSearchHandler (fun _ _ => .error "network") none =
      (⟨400, jsonErr "Query parameter is required"⟩, []) ∧
    tvSearchHandler (fun _ _ => .error "network") (fun s => s) none =
      (⟨400, jsonErr "Query parameter is required"⟩, []) :=
  ⟨Or.inl rfl,
    c6_empty_query_short_circuits (fun _ _ => .error "network") (fun s => s)
      none (Or.inl rfl)⟩

/-- Claim C8, counterexample: `/auth/validate` contacts upstream, and when
that call throws it answers 401, not 500. -/
theorem c8_auth_validate_throws_401 :
    (authValidateHandler (fun _ _ => .error "boom")).1.status = 401 ∧
    (authValidateHandler (fun _ _ => .error "boom")).1.status ≠ 500 ∧
    (authValidateHandler (fun _ _ => .error "boom")).2 =
      [⟨"/authentication/token/new", []⟩] :=
  ⟨rfl, by decide, rfl⟩

/-- Claim C8, amended: when the upstream call throws, the movie-details and
TV-details handlers (like the other data handlers) answer 500 with a static
handler-specific error body that does not depend on the thrown error, while
the credential-validation handler `/auth/validate` instead answers 401 with
a static error body. -/
theorem c8_upstream_failure_maps_to_500 (fetch : Fetch) (movieId : Nat)
    (seriesId : String) (e1 e2 e3 : String)
    (h1 : fetch ("/movie/" ++ toString movieId) [] = .error e1)
    (h2 : isAllDigits seriesId = true)
    (h3 : fetch ("/tv/" ++ seriesId) [] = .error e2)
    (h4 : fetch "/authentication/token/new" [] = .error e3) :
    movieDetailsHandler fetch movieId =
      (⟨500, jsonErr "Failed to fetch movie details"⟩,
        [⟨"/movie/" ++ toString movieId, []⟩]) ∧
    tvDetailsHandler fetch seriesId =
      (⟨500, jsonErr ("Failed to fetch TV show with id " ++ seriesId)⟩,
        [⟨"/tv/" ++ seriesId, []⟩]) ∧
    authValidateHandler fetch =
      (⟨401, jsonErr "Invalid API Key"⟩,
        [⟨"/authentication/token/new", []⟩]) := by
  refine ⟨?_, ?_, ?_⟩
  · unfold movieDetailsHandler handleFetch
    rw [h1]
    rfl
  · unfold tvDetailsHandler handleFetch
    rw [h2, h3]
    simp
    rfl
  · unfold authValidateHandler
    rw [h4]

/-- Witness for the amended C8 theorem with an always-failing fetch. -/
theorem c8_upstream_failure_maps_to_500_witness :
    ((fun (_ : String) (_ : List (String × String)) =>
        (Except.error "boom" : Except String JsValue)) "/movie/550" [] =
      .error "boom") ∧
    isAllDigits "66732" = true ∧
    movieDetailsHandler (fun _ _ => .error "boom") 550 =
      (⟨500, jsonErr "Failed to fetch movie details"⟩,
        [⟨"/movie/550", []⟩]) ∧
    tvDetailsHandler (fun _ _ => .error "boom") "66732" =
      (⟨500, jsonErr "Failed to fetch TV show with id 66732"⟩,
        [⟨"/tv/66732", []⟩]) :=
  ⟨rfl, by decide,
    (c8_upstream_failure_maps_to_500 (fun _ _ => .error "boom") 550 "66732"
      "boom" "boom" "boom" rfl (by decide) rfl rfl).1,
    (c8_upstream_failure_maps_to_500 (fun _ _ => .error "boom") 550 "66732"
      "boom" "boom" "boom" rfl (by decide) rfl rfl).2.1⟩

/-- A response respects the documented error taxonomy when it is a 200, or a
400/500 whose body is an `{ error: string }` object. -/
def respWellFormed (r : HttpResponse) : Prop :=
  r.status = 200 ∨
    ((r.status = 400 ∨ r.status = 500) ∧ ∃ s, r.body = jsonErr s)

theorem handleFetch_respWellFormed (fetch : Fetch) (ep : String)
    (ps : List (String × String)) (shape : JsValue → Except String JsValue)
    (errMsg : String) :
    respWellFormed (handleFetch fetch ep ps shape errMsg).1 := by
  unfold handleFetch
  cases hb : Except.bind (fetch ep ps) shape with
  | error e => exact Or.inr ⟨Or.inr rfl, errMsg, rfl⟩
  | ok body => exact Or.inl rfl

/-- Claim C9, counterexample: the `/auth/validate` handler produces an error
response whose status is 401, which is neither 400 nor 500. -/
theorem c9_auth_validate_status_401 :
    (authValidateHandler (fun _ _ => .error "down")).1.status = 401 ∧
    (401 : Nat) ≠ 400 ∧ (401 : Nat) ≠ 500 :=
  ⟨rfl, by decide, by decide⟩

/-- Claim C9, amended: every response of the data route handlers is a 200,
or a 400/500 with an `{ error: string }` body; the exceptions are the
credential-validation endpoints: `/auth/validate` answers 200 or 401 (the
401 still carrying an `{ error: string }` body), and the root `/validate`
answers 200 or 500 with plain-text string bodies. -/
theorem c9_error_status_taxonomy (fetch : Fetch) (enc : String → String)
    (q1 q2 q3 q4 : Option String) (movieId : Nat) (seriesId : String)
    (axiosGet : Fetch) (baseUrl apiKey : String) :
    respWellFormed (movieSearchHandler fetch q1).1 ∧
    respWellFormed (tvSearchHandler fetch enc q2).1 ∧
    respWellFormed (personSearchHandler fetch q3).1 ∧
    respWellFormed (movieDetailsHandler fetch movieId).1 ∧
    respWellFormed (tvDetailsHandler fetch seriesId).1 ∧
    respWellFormed (multiSearchHandler fetch q4).1 ∧
    respWellFormed healthHandler.1 ∧
    ((authValidateHandler fetch).1.status = 200 ∨
      ((authValidateHandler fetch).1.status = 401 ∧
        ∃ s, (authValidateHandler fetch).1.body = jsonErr s)) ∧
    (rootValidateHandler axiosGet baseUrl apiKey =
        ⟨200, .str "API key is valid."⟩ ∨
      rootValidateHandler axiosGet baseUrl apiKey =
        ⟨500, .str "API key is invalid or TMDB service is unavailable."⟩) := by
  refine ⟨?_, ?_, ?_, ?_, ?_, ?_, Or.inl rfl, ?_, ?_⟩
  · unfold movieSearchHandler
    split
    · exact Or.inr ⟨Or.inl rfl, _, rfl⟩
    · exact handleFetch_respWellFormed _ _ _ _ _
  · unfold tvSearchHandler
    split
    · exact Or.inr ⟨Or.inl rfl, _, rfl⟩
    · exact handleFetch_respWellFormed _ _ _ _ _
  · exact handleFetch_respWellFormed _ _ _ _ _
  · exact handleFetch_respWellFormed _ _ _ _ _
  · unfold tvDetailsHandler
    split
    · exact Or.inr ⟨Or.inl rfl, _, rfl⟩
    · exact handleFetch_respWellFormed _ _ _ _ _
  · exact handleFetch_respWellFormed _ _ _ _ _
  · unfold authValidateHandler
    cases fetch "/authentication/token/new" [] with
    | ok d => exact Or.inl rfl
    | error e => exact Or.inr ⟨rfl, _, rfl⟩
  · unfold rootValidateHandler
    cases axiosGet (baseUrl ++ "/configuration") [("api_key", apiKey)] with
    | ok d => exact Or.inl rfl
    | error e => exact Or.inr rfl

/-- JS `endpoint.startsWith('/')`: the first character is a slash. -/
def startsWithSlash (s : String) : Bool :=
  match s.data with
  | [] => false
  | c :: _ => c == '/'

/-- URL resolution in `fetchFromTmdb` (helpers/tmdbHelper.js, reproduced in
the repository README): prepend a slash exactly when the endpoint does not
already start with one. -/
def resolveTmdbUrl (baseUrl endpoint : String) : String :=
  baseUrl ++ (if startsWithSlash endpoint then endpoint else "/" ++ endpoint)

/-- One step of JS object-literal assignment: writing key `k` updates an
existing entry in place (keeping its position) or appends a new one. -/
def upsert : List (String × String) → String → String → List (String × String)
  | [], k, v => [(k, v)]
  | (k', v') :: rest, k, v =>
    if k' = k then (k', v) :: rest else (k', v') :: upsert rest k v

/-- The merged parameter object `{ api_key: tmdbApiKey, ...params }`: start
from the API key and assign the spread properties in order. -/
def spreadParams (apiKey : String) (params : List (String × String)) :
    List (String × String) :=
  params.foldl (fun acc kv => upsert acc kv.1 kv.2) [("api_key", apiKey)]

/-- `fetchFromTmdb`: resolves the URL, merges the API key into the caller's
parameters, performs the GET, returns the parsed body, and rethrows any
failure to the caller. -/
def fetchFromTmdb (axiosGet : Fetch) (baseUrl apiKey endpoint : String)
    (params : List (String × String)) : Except String JsValue :=
  match axiosGet (resolveTmdbUrl baseUrl endpoint)
      (spreadParams apiKey params) with
  | .ok data => .ok data
  | .error e => .error e

/-- The endpoint normalization as the specification words it ("normalized to
have exactly one leading slash; a leading slash is optional in the input"),
stated from the spec's words only, for comparison with `resolveTmdbUrl`. -/
def specNormalizeEndpoint (endpoint : String) : String :=
  "/" ++ String.mk (endpoint.data.dropWhile (fun c => c == '/'))

theorem upsert_of_not_mem (k v : String) :
    ∀ (acc : List (String × String)), k ∉ acc.map Prod.fst →
      upsert acc k v = acc ++ [(k, v)] := by
  intro acc
  induction acc with
  | nil => intro _; rfl
  | cons kv rest ih =>
    intro h
    obtain ⟨k', v'⟩ := kv
    simp only [List.map_cons, List.mem_cons, not_or] at h
    unfold upsert
    rw [if_neg (fun hk => h.1 hk.symm), ih h.2]
    rfl

theorem foldl_upsert_of_disjoint :
    ∀ (ps acc : List (String × String)), (ps.map Prod.fst).Nodup →
      (∀ k, k ∈ ps.map Prod.fst → k ∉ acc.map Prod.fst) →
      ps.foldl (fun acc kv => upsert acc kv.1 kv.2) acc = acc ++ ps := by
  intro ps
  induction ps with
  | nil => intro acc _ _; simp
  | cons kv rest ih =>
    intro acc hnd hdisj
    obtain ⟨k, v⟩ := kv
    simp only [List.map_cons, List.nodup_cons] at hnd
    rw [List.foldl_cons, upsert_of_not_mem k v acc (hdisj k (by simp)),
        ih (acc ++ [(k, v)]) hnd.2 ?_]
    · simp
    · intro k' hk'
      simp only [List.map_append, List.mem_append, List.map_cons,
        List.map_nil, List.mem_singleton, not_or]
      refine ⟨hdisj k' (by simp [hk']), ?_⟩
      intro hkk
      exact hnd.1 (hkk ▸ hk')

theorem spreadParams_eq (apiKey : String) (ps : List (String × String))
    (h1 : "api_key" ∉ ps.map Prod.fst) (h2 : (ps.map Prod.fst).Nodup) :
    spreadParams apiKey ps = ("api_key", apiKey) :: ps := by
  unfold spreadParams
  rw [foldl_upsert_of_disjoint ps [("api_key", apiKey)] h2 ?_]
  · rfl
  · intro k hk
    simp only [List.map_cons, List.map_nil, List.mem_singleton]
    intro hkk
    exact h1 (hkk ▸ hk)

/-- Claim C7, counterexample: an endpoint already starting with two slashes
is passed through unchanged, so the issued URL does not match the spec's
"exactly one leading slash" normalization. -/
theorem c7_double_slash_counterexample :
    resolveTmdbUrl "https://api.example" "//configuration" =
      "https://api.example//configuration" ∧
    "https://api.example" ++ specNormalizeEndpoint "//configuration" =
      "https://api.example/configuration" ∧
    resolveTmdbUrl "https://api.example" "//configuration" ≠
      "https://api.example" ++ specNormalizeEndpoint "//configuration" := by
  refine ⟨by decide, by decide, by decide⟩

/-- Claim C7, amended: the upstream client issues the GET to the base URL
concatenated with the endpoint, prepending a slash exactly when the endpoint
does not already start with one (an endpoint already beginning with a slash
— even several — is passed through unchanged); when the caller's parameter
map does not itself contain `api_key`, the merged parameter set is the
configured API key first followed by the caller's parameters in order, and
the parsed body of a successful GET is returned as-is. -/
theorem c7_fetch_contract (axiosGet : Fetch)
    (baseUrl apiKey endpoint : String) (ps : List (String × String))
    (h1 : "api_key" ∉ ps.map Prod.fst) (h2 : (ps.map Prod.fst).Nodup) :
    spreadParams apiKey ps = ("api_key", apiKey) :: ps ∧
    (startsWithSlash endpoint = true →
      resolveTmdbUrl baseUrl endpoint = baseUrl ++ endpoint) ∧
    (startsWithSlash endpoint = false →
      resolveTmdbUrl baseUrl endpoint = baseUrl ++ ("/" ++ endpoint)) ∧
    fetchFromTmdb axiosGet baseUrl apiKey endpoint ps =
      axiosGet (resolveTmdbUrl baseUrl endpoint)
        (("api_key", apiKey) :: ps) ∧
    (∀ data,
      axiosGet (resolveTmdbUrl baseUrl endpoint)
          (("api_key", apiKey) :: ps) = .ok data →
      fetchFromTmdb axiosGet baseUrl apiKey endpoint ps = .ok data) := by
  have hsp := spreadParams_eq apiKey ps h1 h2
  have hfetch : fetchFromTmdb axiosGet baseUrl apiKey endpoint ps =
      axiosGet (resolveTmdbUrl baseUrl endpoint) (("api_key", apiKey) :: ps) := by
    unfold fetchFromTmdb
    rw [hsp]
    cases axiosGet (resolveTmdbUrl baseUrl endpoint)
        (("api_key", apiKey) :: ps) with
    | ok data => rfl
    | error e => rfl
  refine ⟨hsp, ?_, ?_, hfetch, ?_⟩
  · intro hs
    unfold resolveTmdbUrl
    rw [hs]
    rfl
  · intro hs
    unfold resolveTmdbUrl
    rw [hs]
    rfl
  · intro data hd
    rw [hfetch, hd]

/-- Witness for the amended C7 theorem at concrete inputs. -/
theorem c7_fetch_contract_witness :
    ("api_key" ∉ ([("query", "batman")].map
        (Prod.fst (α := String) (β := String)))) ∧
    (([("query", "batman")].map
        (Prod.fst (α := String) (β := String))).Nodup) ∧
    spreadParams "KEY" [("query", "batman")] =
      [("api_key", "KEY"), ("query", "batman")] :=
  ⟨by decide, by decide,
    (c7_fetch_contract (fun _ _ => .error "net") "https://api.example" "KEY"
      "search/movie" [("query", "batman")] (by decide) (by decide)).1⟩
